import Mathlib

/-!
Verification of the student-records CRUD service (`src/main.py`).

The service is a FastAPI application backed by a MongoDB collection
`db.students`.  We embed it shallowly: the collection is an association
list from identifier strings (the string rendering of a BSON `ObjectId`)
to student documents, and each HTTP handler becomes a pure function that
takes the store and returns the new store together with an
`Except`-style outcome.  BSON's `ObjectId(s)` constructor on a string
succeeds exactly when `s` is a 24-character hexadecimal token; any other
string raises, which the handlers translate to HTTP 400.
-/

namespace StudentP

/-- A stored student document: the fields of the Mongo document besides
the `_id` key.  `grade` is nullable (`Optional[str]` in the Pydantic
models). -/
structure StudentDoc where
  name : String
  email : String
  age : Int
  grade : Option String
deriving DecidableEq, Repr

/-- Request body of `POST /students` (`StudentCreate` in `main.py`):
`name`, `email`, `age` required, `grade` optional with default `None`. -/
structure StudentCreate where
  name : String
  email : String
  age : Int
  grade : Option String := none
deriving DecidableEq, Repr

/-- Request body of `PUT /students/{id}` (`StudentUpdate` in `main.py`):
every field optional with default `None`.  Pydantic assigns `None` both
to an absent field and to an explicit JSON `null`, so the two are the
same value here, exactly as in the source. -/
structure StudentUpdate where
  name : Option String := none
  email : Option String := none
  age : Option Int := none
  grade : Option String := none
deriving DecidableEq, Repr

/-- Response record shape `{id, name, email, age, grade}` produced by
`student_helper`. -/
structure StudentOut where
  id : String
  name : String
  email : String
  age : Int
  grade : Option String
deriving DecidableEq, Repr

/-- The user-visible handler errors raised via `HTTPException`. -/
inductive Err where
  | invalidId
  | notFound
  | noFields
deriving DecidableEq, Repr

/-- HTTP status code attached to each `HTTPException` in `main.py`. -/
def statusOf : Err → Nat
  | .invalidId => 400
  | .notFound => 404
  | .noFields => 400

/-- The `detail` string of each `HTTPException` in `main.py`. -/
def errDetail : Err → String
  | .invalidId => "Invalid student ID format"
  | .notFound => "Student not found"
  | .noFields => "No fields to update"

/-- Success status code of `POST /students` (`status_code=201`). -/
def create_status_code : Nat := 201

/-- Success status code of `DELETE /students/{id}` (`status_code=204`,
handler returns `None`, i.e. no content). -/
def delete_status_code : Nat := 204

/-- Success status code of `GET /healthz` (FastAPI default). -/
def health_status_code : Nat := 200

/-- The `db.students` collection: documents keyed by the string
rendering of their `_id`. -/
abbrev Store := List (String × StudentDoc)

/-- `find_one({"_id": id})`: the first document whose key equals `id`. -/
def lookup : Store → String → Option StudentDoc
  | [], _ => none
  | p :: ps, id => if p.1 = id then some p.2 else lookup ps id

/-- A hexadecimal digit, as accepted by `bytes.fromhex`. -/
def isHexChar (c : Char) : Bool :=
  c.isDigit || (97 ≤ c.toNat && c.toNat ≤ 102) || (65 ≤ c.toNat && c.toNat ≤ 70)

/-- `ObjectId(student_id)` on a string argument succeeds exactly when the
string is 24 hexadecimal characters; otherwise BSON raises `InvalidId`,
caught by the handlers' `except Exception` and turned into a 400. -/
def isValidObjectId (s : String) : Bool :=
  s.data.length == 24 && s.data.all isHexChar

/-- `student_helper`: converts a found document (with its `_id`) to the
response dict `{id, name, email, age, grade}`. -/
def student_helper (id : String) (d : StudentDoc) : StudentOut :=
  { id := id, name := d.name, email := d.email, age := d.age, grade := d.grade }

/-- `student.dict()` of a `StudentCreate` body, as inserted by
`insert_one`. -/
def toDoc (s : StudentCreate) : StudentDoc :=
  { name := s.name, email := s.email, age := s.age, grade := s.grade }

/-- `POST /students` (`create_student`): `insert_one(student.dict())`
appends the document under the server-generated fresh id `newId`, then
`find_one({"_id": inserted_id})` re-reads it and `student_helper`
shapes the 201 response. -/
def create_student (store : Store) (newId : String) (s : StudentCreate) :
    Store × Option StudentOut :=
  let store' := store ++ [(newId, toDoc s)]
  (store', (lookup store' newId).map (student_helper newId))

/-- `GET /students/{student_id}` (`get_student`): 400 on an unparsable
id, 404 when no document matches, otherwise the record. -/
def get_student (store : Store) (student_id : String) : Except Err StudentOut :=
  if isValidObjectId student_id = false then .error .invalidId
  else
    match lookup store student_id with
    | some d => .ok (student_helper student_id d)
    | none => .error .notFound

/-- Number of entries of `{k: v for k, v in student_update.dict().items()
if v is not None}`: the count of fields actually provided. -/
def numProvided (u : StudentUpdate) : Nat :=
  (if u.name.isSome then 1 else 0) + (if u.email.isSome then 1 else 0) +
  (if u.age.isSome then 1 else 0) + (if u.grade.isSome then 1 else 0)

/-- Effect of `{"$set": update_data}` on a matched document: each field
present (non-`None`) in the payload is overwritten, every other field is
left as stored. -/
def applyUpdate (d : StudentDoc) (u : StudentUpdate) : StudentDoc :=
  { name := u.name.getD d.name,
    email := u.email.getD d.email,
    age := u.age.getD d.age,
    grade := match u.grade with | some g => some g | none => d.grade }

/-- `find_one_and_update` rewrites the first document whose key matches,
leaving the rest of the collection untouched. -/
def setFirst : Store → String → StudentDoc → Store
  | [], _, _ => []
  | p :: ps, id, d => if p.1 = id then (p.1, d) :: ps else p :: setFirst ps id d

/-- `PUT /students/{student_id}` (`update_student`): first the
`len(update_data) < 1` check (400 "No fields to update"), then the
`ObjectId` parse (400 on failure), then `find_one_and_update` with
`return_document=True`: `None` result means 404, otherwise the
post-update document is returned via `student_helper`. -/
def update_student (store : Store) (student_id : String) (u : StudentUpdate) :
    Store × Except Err StudentOut :=
  if numProvided u < 1 then (store, .error .noFields)
  else if isValidObjectId student_id = false then (store, .error .invalidId)
  else
    match lookup store student_id with
    | some d =>
        let d' := applyUpdate d u
        (setFirst store student_id d', .ok (student_helper student_id d'))
    | none => (store, .error .notFound)

/-- `delete_one({"_id": id})`: removes the first matching document and
reports `deleted_count`. -/
def deleteOne : Store → String → Nat × Store
  | [], _ => (0, [])
  | p :: ps, id =>
      if p.1 = id then (1, ps)
      else
        let r := deleteOne ps id
        (r.1, p :: r.2)

/-- `DELETE /students/{student_id}` (`delete_student`): 400 on an
unparsable id, 404 when `deleted_count == 0`, otherwise 204 with no
content. -/
def delete_student (store : Store) (student_id : String) :
    Store × Except Err Unit :=
  if isValidObjectId student_id = false then (store, .error .invalidId)
  else
    let r := deleteOne store student_id
    if r.1 = 0 then (store, .error .notFound)
    else (r.2, .ok ())

/-- Response body of `GET /healthz`. -/
structure HealthBody where
  status : String
deriving DecidableEq, Repr

/-- `GET /healthz` (`health_check`): a constant; the function touches
neither the store nor any other state. -/
def health_check : HealthBody := { status := "ok" }

/-- Mongo enforces uniqueness of `_id`, so store keys are distinct. -/
def keysNodup (store : Store) : Prop := (store.map Prod.fst).Nodup

end StudentP

namespace StudentP

/-! ### Store lemmas -/

theorem lookup_append_self (store : Store) (id : String) (d : StudentDoc)
    (h : lookup store id = none) : lookup (store ++ [(id, d)]) id = some d := by
  induction store with
  | nil => simp [lookup]
  | cons p ps ih =>
      by_cases hp : p.1 = id
      · simp [lookup, hp] at h
      · simp only [List.cons_append, lookup, if_neg hp] at h ⊢
        exact ih h

theorem lookup_setFirst_self (store : Store) (id : String) (d0 d : StudentDoc)
    (h : lookup store id = some d0) : lookup (setFirst store id d) id = some d := by
  induction store with
  | nil => simp [lookup] at h
  | cons p ps ih =>
      by_cases hp : p.1 = id
      · simp [setFirst, lookup, hp]
      · simp only [lookup, if_neg hp] at h
        simp only [setFirst, if_neg hp, lookup]
        exact ih h

theorem lookup_setFirst_ne (store : Store) (id id' : String) (d : StudentDoc)
    (h : id' ≠ id) : lookup (setFirst store id d) id' = lookup store id' := by
  induction store with
  | nil => simp [setFirst]
  | cons p ps ih =>
      by_cases hp : p.1 = id
      · have hne : ¬ (p.1 = id') := fun hh => h (hh.symm.trans hp)
        simp only [setFirst, if_pos hp, lookup, if_neg hne]
      · simp only [setFirst, if_neg hp, lookup]
        by_cases hq : p.1 = id'
        · simp [hq]
        · rw [if_neg hq, if_neg hq]
          exact ih

theorem lookup_eq_none_of_not_mem (store : Store) (id : String)
    (h : id ∉ store.map Prod.fst) : lookup store id = none := by
  induction store with
  | nil => rfl
  | cons p ps ih =>
      simp only [List.map_cons, List.mem_cons, not_or] at h
      obtain ⟨h1, h2⟩ := h
      have hne : ¬ (p.1 = id) := fun hh => h1 hh.symm
      simp only [lookup, if_neg hne]
      exact ih h2

theorem deleteOne_of_lookup_none (store : Store) (id : String)
    (h : lookup store id = none) : deleteOne store id = (0, store) := by
  induction store with
  | nil => rfl
  | cons p ps ih =>
      by_cases hp : p.1 = id
      · simp [lookup, hp] at h
      · simp only [lookup, if_neg hp] at h
        simp [deleteOne, hp, ih h]

theorem deleteOne_count_one (store : Store) (id : String) (d : StudentDoc)
    (h : lookup store id = some d) : (deleteOne store id).1 = 1 := by
  induction store with
  | nil => simp [lookup] at h
  | cons p ps ih =>
      by_cases hp : p.1 = id
      · simp [deleteOne, hp]
      · simp only [lookup, if_neg hp] at h
        simp only [deleteOne, if_neg hp]
        exact ih h

theorem lookup_deleteOne_self (store : Store) (id : String)
    (h : keysNodup store) : lookup (deleteOne store id).2 id = none := by
  induction store with
  | nil => simp [deleteOne, lookup]
  | cons p ps ih =>
      rw [keysNodup, List.map_cons, List.nodup_cons] at h
      obtain ⟨hnm, hnd⟩ := h
      by_cases hp : p.1 = id
      · subst hp
        simp only [deleteOne, if_pos rfl]
        exact lookup_eq_none_of_not_mem ps p.1 hnm
      · simp only [deleteOne, if_neg hp, lookup]
        exact ih hnd

end StudentP

namespace StudentP

/-! ### Claim theorems -/

/-- C1: creating a record under a fresh server-generated identifier and
then fetching it with `GetById` using that identifier yields a record
whose `name`, `email`, `age` and `grade` all equal the created
record's; both the creation response and the fetched record carry
exactly the submitted fields. -/
theorem create_then_get_roundtrip (store : Store) (s : StudentCreate) (newId : String)
    (hval : isValidObjectId newId = true)
    (hfresh : lookup store newId = none) :
    (create_student store newId s).2 =
      some { id := newId, name := s.name, email := s.email, age := s.age, grade := s.grade } ∧
    get_student (create_student store newId s).1 newId =
      .ok { id := newId, name := s.name, email := s.email, age := s.age, grade := s.grade } := by
  have hl : lookup (store ++ [(newId, toDoc s)]) newId = some (toDoc s) :=
    lookup_append_self store newId (toDoc s) hfresh
  simp only [toDoc] at hl
  constructor
  · simp [create_student, toDoc, hl, student_helper]
  · simp [create_student, get_student, toDoc, hval, hl, student_helper]

/-- Witness for C1 at a concrete fresh identifier and payload. -/
theorem create_then_get_roundtrip_witness :
    (create_student [] "507f1f77bcf86cd799439011"
        { name := "Ann", email := "a@x.com", age := 20 }).2 =
      some { id := "507f1f77bcf86cd799439011", name := "Ann", email := "a@x.com",
             age := 20, grade := none } ∧
    get_student (create_student [] "507f1f77bcf86cd799439011"
        { name := "Ann", email := "a@x.com", age := 20 }).1 "507f1f77bcf86cd799439011" =
      .ok { id := "507f1f77bcf86cd799439011", name := "Ann", email := "a@x.com",
            age := 20, grade := none } :=
  create_then_get_roundtrip [] { name := "Ann", email := "a@x.com", age := 20 }
    "507f1f77bcf86cd799439011" (by decide) rfl

/-- C2: for every identifier and every update payload with all four
fields absent (Pydantic maps an explicit JSON null to the same `None`),
`Update` returns the 400 `NoFieldsProvided` error and the store — hence
the stored record for that identifier, if any — is unchanged. -/
theorem update_empty_payload (store : Store) (student_id : String) (u : StudentUpdate)
    (h : u.name = none ∧ u.email = none ∧ u.age = none ∧ u.grade = none) :
    update_student store student_id u = (store, .error .noFields) ∧
    statusOf .noFields = 400 := by
  obtain ⟨h1, h2, h3, h4⟩ := h
  refine ⟨?_, rfl⟩
  simp [update_student, numProvided, h1, h2, h3, h4]

/-- Witness for C2: an empty payload against a store holding one record
under a well-formed identifier leaves the record in place. -/
theorem update_empty_payload_witness :
    update_student
        [("507f1f77bcf86cd799439011",
          { name := "Ann", email := "a@x.com", age := 20, grade := none })]
        "507f1f77bcf86cd799439011" {} =
      ([("507f1f77bcf86cd799439011",
          { name := "Ann", email := "a@x.com", age := 20, grade := none })],
        .error .noFields) ∧
    statusOf .noFields = 400 :=
  update_empty_payload
    [("507f1f77bcf86cd799439011",
      { name := "Ann", email := "a@x.com", age := 20, grade := none })]
    "507f1f77bcf86cd799439011" {} ⟨rfl, rfl, rfl, rfl⟩

/-- C9: `GET /healthz` always returns 200 with exactly the body
`{status: "ok"}`; `health_check` takes no store argument, mirroring
that the handler performs no database call. -/
theorem health_check_contract :
    health_check = { status := "ok" } ∧ health_status_code = 200 :=
  ⟨rfl, rfl⟩

/-- C10: in `Update` the empty-payload check runs before identifier
validation: with an invalid identifier and an all-absent payload the
result is the `NoFieldsProvided` 400 (detail "No fields to update"),
not the `InvalidIdentifier` error, and the store is untouched for
every store. -/
theorem empty_check_precedes_id_validation (store : Store) (student_id : String)
    (u : StudentUpdate)
    (_hinv : isValidObjectId student_id = false)
    (hempty : u.name = none ∧ u.email = none ∧ u.age = none ∧ u.grade = none) :
    update_student store student_id u = (store, .error .noFields) ∧
    errDetail .noFields = "No fields to update" ∧
    Err.noFields ≠ Err.invalidId ∧
    statusOf .noFields = 400 := by
  obtain ⟨h1, h2, h3, h4⟩ := hempty
  refine ⟨?_, rfl, by decide, rfl⟩
  simp [update_student, numProvided, h1, h2, h3, h4]

/-- Witness for C10 at the invalid identifier "abc" and the empty
payload. -/
theorem empty_check_precedes_id_validation_witness :
    update_student
        [("507f1f77bcf86cd799439011",
          { name := "Ann", email := "a@x.com", age := 20, grade := none })]
        "abc" {} =
      ([("507f1f77bcf86cd799439011",
          { name := "Ann", email := "a@x.com", age := 20, grade := none })],
        .error .noFields) ∧
    errDetail .noFields = "No fields to update" ∧
    Err.noFields ≠ Err.invalidId ∧
    statusOf .noFields = 400 :=
  empty_check_precedes_id_validation
    [("507f1f77bcf86cd799439011",
      { name := "Ann", email := "a@x.com", age := 20, grade := none })]
    "abc" {} (by decide) ⟨rfl, rfl, rfl, rfl⟩

end StudentP

namespace StudentP

/-- C3: a successful partial `Update` on an existing record replaces
exactly the provided fields and keeps every omitted field at its prior
stored value; the record keeps its identifier and every other record in
the store is untouched. -/
theorem update_partial_frame (store : Store) (student_id : String) (u : StudentUpdate)
    (d : StudentDoc)
    (hval : isValidObjectId student_id = true)
    (hfound : lookup store student_id = some d)
    (hne : 1 ≤ numProvided u) :
    update_student store student_id u =
      (setFirst store student_id (applyUpdate d u),
       .ok (student_helper student_id (applyUpdate d u))) ∧
    lookup (update_student store student_id u).1 student_id = some (applyUpdate d u) ∧
    (∀ id', id' ≠ student_id →
      lookup (update_student store student_id u).1 id' = lookup store id') ∧
    (student_helper student_id (applyUpdate d u)).id = student_id ∧
    (∀ v, u.name = some v → (applyUpdate d u).name = v) ∧
    (u.name = none → (applyUpdate d u).name = d.name) ∧
    (∀ v, u.email = some v → (applyUpdate d u).email = v) ∧
    (u.email = none → (applyUpdate d u).email = d.email) ∧
    (∀ v, u.age = some v → (applyUpdate d u).age = v) ∧
    (u.age = none → (applyUpdate d u).age = d.age) ∧
    (∀ v, u.grade = some v → (applyUpdate d u).grade = some v) ∧
    (u.grade = none → (applyUpdate d u).grade = d.grade) := by
  have hlt : ¬ numProvided u < 1 := Nat.not_lt.mpr hne
  have heq : update_student store student_id u =
      (setFirst store student_id (applyUpdate d u),
       .ok (student_helper student_id (applyUpdate d u))) := by
    simp [update_student, hlt, hval, hfound]
  refine ⟨heq, ?_, ?_, rfl, ?_, ?_, ?_, ?_, ?_, ?_, ?_, ?_⟩
  · rw [heq]
    exact lookup_setFirst_self store student_id d (applyUpdate d u) hfound
  · intro id' hid
    rw [heq]
    exact lookup_setFirst_ne store student_id id' (applyUpdate d u) hid
  · intro v hv; simp [applyUpdate, hv]
  · intro hv; simp [applyUpdate, hv]
  · intro v hv; simp [applyUpdate, hv]
  · intro hv; simp [applyUpdate, hv]
  · intro v hv; simp [applyUpdate, hv]
  · intro hv; simp [applyUpdate, hv]
  · intro v hv; simp [applyUpdate, hv]
  · intro hv; simp [applyUpdate, hv]

/-- Witness for C3: updating only `age` on a one-record store changes
`age` and nothing else. -/
theorem update_partial_frame_witness :
    update_student
        [("507f1f77bcf86cd799439011",
          { name := "Ann", email := "a@x.com", age := 20, grade := none })]
        "507f1f77bcf86cd799439011" { age := some 21 } =
      ([("507f1f77bcf86cd799439011",
          { name := "Ann", email := "a@x.com", age := 21, grade := none })],
        .ok { id := "507f1f77bcf86cd799439011", name := "Ann", email := "a@x.com",
              age := 21, grade := none }) :=
  (update_partial_frame
    [("507f1f77bcf86cd799439011",
      { name := "Ann", email := "a@x.com", age := 20, grade := none })]
    "507f1f77bcf86cd799439011" { age := some 21 }
    { name := "Ann", email := "a@x.com", age := 20, grade := none }
    (by decide) rfl (by decide)).1

/-- C4: deleting an existing record succeeds with 204 and no content;
afterwards `GetById` on that identifier fails with `NotFound` (404) and
a second `Delete` also fails with `NotFound`, leaving the store as the
first delete left it. -/
theorem delete_then_get_notFound (store : Store) (student_id : String) (d : StudentDoc)
    (hval : isValidObjectId student_id = true)
    (hnodup : keysNodup store)
    (hfound : lookup store student_id = some d) :
    delete_student store student_id = ((deleteOne store student_id).2, .ok ()) ∧
    get_student (deleteOne store student_id).2 student_id = .error .notFound ∧
    delete_student (deleteOne store student_id).2 student_id =
      ((deleteOne store student_id).2, .error .notFound) ∧
    statusOf .notFound = 404 ∧
    delete_status_code = 204 := by
  have hc : (deleteOne store student_id).1 = 1 :=
    deleteOne_count_one store student_id d hfound
  have hl : lookup (deleteOne store student_id).2 student_id = none :=
    lookup_deleteOne_self store student_id hnodup
  refine ⟨?_, ?_, ?_, rfl, rfl⟩
  · simp [delete_student, hval, hc]
  · simp [get_student, hval, hl]
  · simp [delete_student, hval, deleteOne_of_lookup_none _ _ hl]

/-- Witness for C4 on a one-record store: the delete empties the store
and both follow-up calls answer `NotFound`. -/
theorem delete_then_get_notFound_witness :
    delete_student
        [("507f1f77bcf86cd799439011",
          { name := "Ann", email := "a@x.com", age := 20, grade := none })]
        "507f1f77bcf86cd799439011" = ([], .ok ()) ∧
    get_student [] "507f1f77bcf86cd799439011" = .error .notFound ∧
    delete_student [] "507f1f77bcf86cd799439011" = ([], .error .notFound) ∧
    statusOf .notFound = 404 ∧
    delete_status_code = 204 :=
  delete_then_get_notFound
    [("507f1f77bcf86cd799439011",
      { name := "Ann", email := "a@x.com", age := 20, grade := none })]
    "507f1f77bcf86cd799439011"
    { name := "Ann", email := "a@x.com", age := 20, grade := none }
    (by decide) (by simp [keysNodup]) rfl

end StudentP

namespace StudentP

/-- C5: on a syntactically invalid identifier, `GetById`, `Update` with
a non-empty payload, and `Delete` all fail with the 400
`InvalidIdentifier` error — never `NotFound` — the store is returned
unchanged, and the `GetById` outcome does not depend on the store at
all. -/
theorem invalid_identifier_operations (store : Store) (student_id : String)
    (u : StudentUpdate)
    (hinv : isValidObjectId student_id = false)
    (hne : 1 ≤ numProvided u) :
    get_student store student_id = .error .invalidId ∧
    update_student store student_id u = (store, .error .invalidId) ∧
    delete_student store student_id = (store, .error .invalidId) ∧
    statusOf .invalidId = 400 ∧
    Err.invalidId ≠ Err.notFound ∧
    get_student store student_id = get_student [] student_id := by
  have hlt : ¬ numProvided u < 1 := Nat.not_lt.mpr hne
  refine ⟨?_, ?_, ?_, rfl, by decide, ?_⟩
  · simp [get_student, hinv]
  · simp [update_student, hlt, hinv]
  · simp [delete_student, hinv]
  · simp [get_student, hinv]

/-- Witness for C5 at the invalid identifier "abc" against a non-empty
store and a non-empty payload. -/
theorem invalid_identifier_operations_witness :
    get_student
        [("507f1f77bcf86cd799439011",
          { name := "Ann", email := "a@x.com", age := 20, grade := none })]
        "abc" = .error .invalidId ∧
    update_student
        [("507f1f77bcf86cd799439011",
          { name := "Ann", email := "a@x.com", age := 20, grade := none })]
        "abc" { age := some 21 } =
      ([("507f1f77bcf86cd799439011",
          { name := "Ann", email := "a@x.com", age := 20, grade := none })],
        .error .invalidId) ∧
    delete_student
        [("507f1f77bcf86cd799439011",
          { name := "Ann", email := "a@x.com", age := 20, grade := none })]
        "abc" =
      ([("507f1f77bcf86cd799439011",
          { name := "Ann", email := "a@x.com", age := 20, grade := none })],
        .error .invalidId) ∧
    statusOf .invalidId = 400 ∧
    Err.invalidId ≠ Err.notFound ∧
    get_student
        [("507f1f77bcf86cd799439011",
          { name := "Ann", email := "a@x.com", age := 20, grade := none })]
        "abc" = get_student [] "abc" :=
  invalid_identifier_operations
    [("507f1f77bcf86cd799439011",
      { name := "Ann", email := "a@x.com", age := 20, grade := none })]
    "abc" { age := some 21 } (by decide) (by decide)

/-- C6: `GetById` has exactly three outcomes, matching the order of
checks in the handler: `InvalidIdentifier` (400) on a malformed token,
`NotFound` (404) when the token is well-formed but absent from the
store, and otherwise the matching record with shape
`{id, name, email, age, grade}`. -/
theorem get_student_trichotomy (store : Store) (student_id : String) :
    (isValidObjectId student_id = false ∧
      get_student store student_id = .error .invalidId ∧ statusOf .invalidId = 400) ∨
    (isValidObjectId student_id = true ∧ lookup store student_id = none ∧
      get_student store student_id = .error .notFound ∧ statusOf .notFound = 404) ∨
    (∃ d, isValidObjectId student_id = true ∧ lookup store student_id = some d ∧
      get_student store student_id =
        .ok { id := student_id, name := d.name, email := d.email,
              age := d.age, grade := d.grade }) := by
  cases hb : isValidObjectId student_id with
  | false => exact Or.inl ⟨rfl, by simp [get_student, hb], rfl⟩
  | true =>
      cases hl : lookup store student_id with
      | none => exact Or.inr (Or.inl ⟨rfl, rfl, by simp [get_student, hb, hl], rfl⟩)
      | some d =>
          exact Or.inr (Or.inr ⟨d, rfl, rfl, by simp [get_student, hb, hl, student_helper]⟩)

end StudentP

namespace StudentP

/-- C7: in a successful `Update` on an existing record, a field carried
as `None` in the parsed payload — which is what both an omitted field
and an explicit JSON null become — is filtered out of `update_data`, so
the stored value of that field survives the write; consequently no
update can turn a non-null stored `grade` into null. -/
theorem update_null_equals_omitted (store : Store) (student_id : String)
    (u : StudentUpdate) (d : StudentDoc)
    (hval : isValidObjectId student_id = true)
    (hfound : lookup store student_id = some d)
    (hne : 1 ≤ numProvided u) :
    lookup (update_student store student_id u).1 student_id = some (applyUpdate d u) ∧
    (u.name = none → (applyUpdate d u).name = d.name) ∧
    (u.email = none → (applyUpdate d u).email = d.email) ∧
    (u.age = none → (applyUpdate d u).age = d.age) ∧
    (u.grade = none → (applyUpdate d u).grade = d.grade) ∧
    ((applyUpdate d u).grade = none → d.grade = none) := by
  have hlt : ¬ numProvided u < 1 := Nat.not_lt.mpr hne
  have heq : (update_student store student_id u).1 =
      setFirst store student_id (applyUpdate d u) := by
    simp [update_student, hlt, hval, hfound]
  refine ⟨?_, ?_, ?_, ?_, ?_, ?_⟩
  · rw [heq]
    exact lookup_setFirst_self store student_id d (applyUpdate d u) hfound
  · intro hv; simp [applyUpdate, hv]
  · intro hv; simp [applyUpdate, hv]
  · intro hv; simp [applyUpdate, hv]
  · intro hv; simp [applyUpdate, hv]
  · intro hg
    rcases hu : u.grade with _ | g
    · simpa [applyUpdate, hu] using hg
    · simp [applyUpdate, hu] at hg

/-- Witness for C7: a name-only update with `grade` absent leaves the
stored grade "A" in place. -/
theorem update_null_equals_omitted_witness :
    lookup
        (update_student
          [("507f1f77bcf86cd799439011",
            { name := "Ann", email := "a@x.com", age := 20, grade := some "A" })]
          "507f1f77bcf86cd799439011" { name := some "Bea" }).1
        "507f1f77bcf86cd799439011" =
      some { name := "Bea", email := "a@x.com", age := 20, grade := some "A" } :=
  (update_null_equals_omitted
    [("507f1f77bcf86cd799439011",
      { name := "Ann", email := "a@x.com", age := 20, grade := some "A" })]
    "507f1f77bcf86cd799439011" { name := some "Bea" }
    { name := "Ann", email := "a@x.com", age := 20, grade := some "A" }
    (by decide) rfl (by decide)).1

/-- C8: `Create` appends a new document under the server-generated
fresh identifier and answers 201 with the full record
`{id, name, email, age, grade}`; when `grade` is omitted the Pydantic
default `None` is stored and returned as null. -/
theorem create_student_contract (store : Store) (newId : String) (s : StudentCreate)
    (hfresh : lookup store newId = none) :
    (create_student store newId s).1 = store ++ [(newId, toDoc s)] ∧
    (create_student store newId s).2 =
      some { id := newId, name := s.name, email := s.email,
             age := s.age, grade := s.grade } ∧
    (s.grade = none → (create_student store newId s).2 =
      some { id := newId, name := s.name, email := s.email,
             age := s.age, grade := none }) ∧
    create_status_code = 201 := by
  have hl : lookup (store ++ [(newId, toDoc s)]) newId = some (toDoc s) :=
    lookup_append_self store newId (toDoc s) hfresh
  simp only [toDoc] at hl
  refine ⟨rfl, ?_, ?_, rfl⟩
  · simp [create_student, toDoc, hl, student_helper]
  · intro hg
    rw [hg] at hl
    simp [create_student, toDoc, hg, hl, student_helper]

/-- Witness for C8: creating a record with `grade` omitted stores and
returns a null grade. -/
theorem create_student_contract_witness :
    (create_student [] "507f1f77bcf86cd799439011"
        { name := "Ann", email := "a@x.com", age := 20 }).1 =
      [("507f1f77bcf86cd799439011",
        { name := "Ann", email := "a@x.com", age := 20, grade := none })] ∧
    (create_student [] "507f1f77bcf86cd799439011"
        { name := "Ann", email := "a@x.com", age := 20 }).2 =
      some { id := "507f1f77bcf86cd799439011", name := "Ann", email := "a@x.com",
             age := 20, grade := none } ∧
    ((StudentCreate.mk "Ann" "a@x.com" 20 none).grade = none →
      (create_student [] "507f1f77bcf86cd799439011"
          { name := "Ann", email := "a@x.com", age := 20 }).2 =
        some { id := "507f1f77bcf86cd799439011", name := "Ann", email := "a@x.com",
               age := 20, grade := none }) ∧
    create_status_code = 201 :=
  create_student_contract [] "507f1f77bcf86cd799439011"
    { name := "Ann", email := "a@x.com", age := 20 } rfl

end StudentP
